import Mathlib

/-!
Verification of the observability subsystem of the GenesisOS agent service.

The source file src/agents/agent_service/main.py contains the HTTP request
handlers. The monitoring service that the handlers call (execution tracker,
metric store, alert engine, health reporter) is specified but its
implementation is not part of the source tree, so those operations are
modelled from the specification and marked as such in their doc comments.
Timestamps and numeric metric values (Python floats) are modelled as rational
numbers; machine floating point rounding is out of scope. Python dicts are
modelled as insertion-ordered association lists, matching dict iteration
order and in-place update semantics.
-/

namespace Monitoring

/-- Status of an execution record: running transitions to completed or to
error, both terminal. -/
inductive ExecStatus where
  | running
  | completed
  | error
deriving DecidableEq

/-- Terminal status accepted by end_execution (status is completed or error). -/
inductive EndStatus where
  | completed
  | error
deriving DecidableEq

/-- Mapping of a terminal status into the stored execution status. -/
def endStatusToExec : EndStatus → ExecStatus
  | .completed => .completed
  | .error => .error

/-- A timed, named sub-step within the log of an execution. -/
structure FunctionCallRecord where
  name : String
  duration_ms : ℚ
  success : Bool
  recorded_at : ℚ
deriving DecidableEq

/-- Per-request lifecycle record owned by the execution tracker. -/
structure ExecutionRecord where
  metadata : List (String × String)
  start_time : ℚ
  end_time : Option ℚ
  status : ExecStatus
  error_message : Option String
  function_calls : List FunctionCallRecord
deriving DecidableEq

/-- The record table of the tracker: a Python dict keyed by execution id,
modelled as an insertion-ordered association list. -/
abbrev TrackerState := List (String × ExecutionRecord)

/-- Lookup of an execution record by id in the record table. -/
def findExec (st : TrackerState) (id : String) : Option ExecutionRecord :=
  match st with
  | [] => none
  | (k, r) :: rest => if k = id then some r else findExec rest id

/-- In-place update of the record stored under the given id (position
preserved, matching Python dict update semantics). -/
def updateExec (st : TrackerState) (id : String) (r : ExecutionRecord) : TrackerState :=
  match st with
  | [] => []
  | (k, r0) :: rest =>
      if k = id then (k, r) :: rest else (k, r0) :: updateExec rest id r

/-- Error signalled by start_execution when the id already has a record. -/
inductive TrackError where
  | duplicateExecution
deriving DecidableEq

/-- Modelled from the spec: start_execution(execution_id, metadata) of the
execution tracker (the tracker implementation is not in the source tree).
It fails with DuplicateExecution if the id already has a live record, leaving
the table untouched, and otherwise creates the record in running state. -/
def start_execution (st : TrackerState) (id : String) (md : List (String × String))
    (now : ℚ) : Except TrackError TrackerState :=
  match findExec st id with
  | some _ => .error .duplicateExecution
  | none => .ok (st ++ [(id, ⟨md, now, none, .running, none, []⟩)])

/-- Modelled from the spec: record_function_call(execution_id, call_name,
duration_ms, success) of the execution tracker. It appends a function call
record; on an unknown id it is a non-fatal no-op. The return type has no
error variant, so the operation cannot raise to the caller. -/
def record_function_call (st : TrackerState) (id : String) (callName : String)
    (duration_ms : ℚ) (success : Bool) (now : ℚ) : TrackerState :=
  match findExec st id with
  | none => st
  | some r =>
      updateExec st id
        { r with function_calls := r.function_calls ++ [⟨callName, duration_ms, success, now⟩] }

/-- Modelled from the spec: end_execution(execution_id, status, error_message)
of the execution tracker. It finalizes a running record; terminal records
accept no further transitions and an unknown id is a non-fatal no-op. -/
def end_execution (st : TrackerState) (id : String) (status : EndStatus)
    (errMsg : Option String) (now : ℚ) : TrackerState :=
  match findExec st id with
  | none => st
  | some r =>
      if r.status = .running then
        updateExec st id
          { r with status := endStatusToExec status, end_time := some now,
                   error_message := errMsg }
      else st

/-- Snapshot returned by get_performance_report. -/
structure Report where
  metadata : List (String × String)
  status : ExecStatus
  total_duration : ℚ
  calls : List FunctionCallRecord
  error_message : Option String
deriving DecidableEq

/-- Report built from one execution record: total duration is end minus start
when terminal, elapsed-so-far otherwise; the call list is the stored order. -/
def mkReport (r : ExecutionRecord) (now : ℚ) : Report :=
  { metadata := r.metadata, status := r.status,
    total_duration :=
      match r.end_time with
      | some e => e - r.start_time
      | none => now - r.start_time,
    calls := r.function_calls, error_message := r.error_message }

/-- Modelled from the spec: get_performance_report(execution_id) of the
execution tracker. NotFound is modelled as none. -/
def get_performance_report (st : TrackerState) (id : String) (now : ℚ) : Option Report :=
  (findExec st id).map (fun r => mkReport r now)

/-- Minimal HTTP response shape observed by callers of the monitoring
endpoints: a status code, the success flag and an optional report payload. -/
structure HttpResponse where
  status_code : Nat
  success : Bool
  report : Option Report
deriving DecidableEq

/-- Embedding of the /monitoring/execution endpoint get_execution_report
(src/agents/agent_service/main.py lines 708-735): a missing report is mapped
to a 404 response, a present one to a 200 success payload. -/
def get_execution_report (st : TrackerState) (id : String) (now : ℚ) : HttpResponse :=
  match get_performance_report st id now with
  | none => ⟨404, false, none⟩
  | some r => ⟨200, true, some r⟩

/-- Kind of a metric series. -/
inductive MetricKind where
  | counter
  | timer
  | gauge
deriving DecidableEq

/-- Running aggregate of one metric series, appropriate to its kind. -/
inductive Aggregate where
  | counter (total : ℚ) (last_updated : ℚ)
  | timer (count : Nat) (total : ℚ) (minv : ℚ) (maxv : ℚ) (last_updated : ℚ)
  | gauge (last : ℚ) (last_updated : ℚ)
deriving DecidableEq

/-- Kind of an aggregate. -/
def kindOf : Aggregate → MetricKind
  | .counter _ _ => .counter
  | .timer _ _ _ _ _ => .timer
  | .gauge _ _ => .gauge

/-- Identity of a metric: name together with its label set. -/
abbrev MetricKey := String × List (String × String)

/-- The metric table, a Python dict modelled as an association list. -/
abbrev MetricStore := List (MetricKey × Aggregate)

/-- Lookup of an aggregate by metric key. -/
def findMetric (st : MetricStore) (key : MetricKey) : Option Aggregate :=
  match st with
  | [] => none
  | (k, a) :: rest => if k = key then some a else findMetric rest key

/-- In-place update of the aggregate stored under the given key. -/
def updateMetric (st : MetricStore) (key : MetricKey) (a : Aggregate) : MetricStore :=
  match st with
  | [] => []
  | (k, a0) :: rest =>
      if k = key then (k, a) :: rest else (k, a0) :: updateMetric rest key a

/-- Error signalled when a metric is recorded with a kind that differs from
the kind previously established for its key. -/
inductive MetricError where
  | kindMismatch
deriving DecidableEq

/-- Fresh aggregate created on the first record for a key. -/
def initAggregate (kind : MetricKind) (value now : ℚ) : Aggregate :=
  match kind with
  | .counter => .counter value now
  | .timer => .timer 1 value value value now
  | .gauge => .gauge value now

/-- In-place step of an existing aggregate: counters add, timers accumulate
count, sum, min and max, gauges replace the stored value. -/
def stepAggregate (a : Aggregate) (value now : ℚ) : Aggregate :=
  match a with
  | .counter total _ => .counter (total + value) now
  | .timer c tot mn mx _ => .timer (c + 1) (tot + value) (min mn value) (max mx value) now
  | .gauge _ _ => .gauge value now

/-- Modelled from the spec: record_metric(name, value, labels, kind) of the
metric store (the store implementation is not in the source tree). The key is
created on first use; a later call with a different kind for an existing key
signals KindMismatch and leaves the store untouched. -/
def record_metric (st : MetricStore) (name : String) (value : ℚ)
    (labels : List (String × String)) (kind : MetricKind) (now : ℚ) :
    Except MetricError MetricStore :=
  match findMetric st (name, labels) with
  | none => .ok (st ++ [((name, labels), initAggregate kind value now)])
  | some a =>
      if kindOf a = kind then .ok (updateMetric st (name, labels) (stepAggregate a value now))
      else .error .kindMismatch

/-- Best-effort application of record_metric as used on the instrumentation
path: a KindMismatch leaves the store unchanged instead of propagating. -/
def recordMetricOrKeep (st : MetricStore) (name : String) (value : ℚ)
    (labels : List (String × String)) (kind : MetricKind) (now : ℚ) : MetricStore :=
  match record_metric st name value labels kind now with
  | .ok st2 => st2
  | .error _ => st

/-- Current summed value of a counter key, zero when the key is absent or is
not a counter. -/
def counterValue (st : MetricStore) (name : String)
    (labels : List (String × String)) : ℚ :=
  match findMetric st (name, labels) with
  | some (.counter total _) => total
  | _ => 0

/-- The key is either absent or already established as a counter, so that a
counter record for it cannot signal KindMismatch. -/
def counterCompat (st : MetricStore) (name : String)
    (labels : List (String × String)) : Bool :=
  match findMetric st (name, labels) with
  | none => true
  | some (.counter _ _) => true
  | some _ => false

/-- Sequential application of counter records for a single key, one per
recorded value; this is the serialization of one interleaving of calls. -/
def recordCounterSeq (st : MetricStore) (name : String)
    (labels : List (String × String)) (vs : List ℚ) (now : ℚ) : MetricStore :=
  vs.foldl (fun s v => recordMetricOrKeep s name v labels .counter now) st

/-- Alert record derived from metric thresholds; the fields are those the
source reads (resolved, timestamp) plus the attributes of the data model. -/
structure Alert where
  id : Nat
  rule_name : String
  severity : String
  message : String
  triggering_metric : String
  timestamp : ℚ
  resolved : Bool
  resolved_at : Option ℚ
deriving DecidableEq

/-- Embedding of the /monitoring/alerts endpoint body
(src/agents/agent_service/main.py lines 737-760): the list comprehension
keeping every stored alert that is unresolved and less than 3600 seconds old.
The input list is the alert store value sequence in dict iteration order and
now is the value of time.time(). No sorting is applied. -/
def get_active_alerts (alerts : List Alert) (now : ℚ) : List Alert :=
  alerts.filter (fun a => !a.resolved && decide (now - a.timestamp < 3600))

/-- Statement of the ordering requirement of the spec on a list of alerts:
each timestamp is at least the following one (newest first). -/
def sortedByTimestampDesc : List Alert → Bool
  | [] => true
  | [_] => true
  | a :: b :: rest =>
      decide (b.timestamp ≤ a.timestamp) && sortedByTimestampDesc (b :: rest)

/-- Comparator of an alert rule. -/
inductive Comparator where
  | lt
  | le
  | gt
  | ge
  | eq
deriving DecidableEq

/-- Evaluation of a comparator against a threshold. -/
def compareValue (c : Comparator) (value threshold : ℚ) : Bool :=
  match c with
  | .lt => decide (value < threshold)
  | .le => decide (value ≤ threshold)
  | .gt => decide (threshold < value)
  | .ge => decide (threshold ≤ value)
  | .eq => decide (value = threshold)

/-- Configured alert rule. -/
structure AlertRule where
  rule_name : String
  metric_name : String
  comparator : Comparator
  threshold : ℚ
  severity : String
deriving DecidableEq

/-- The alert is the unresolved alert of the given rule. -/
def isUnresolvedFor (rn : String) (a : Alert) : Bool :=
  a.rule_name == rn && !a.resolved

/-- Some unresolved alert for the rule exists. -/
def hasUnresolved (alerts : List Alert) (rn : String) : Bool :=
  alerts.any (isUnresolvedFor rn)

/-- Message attached to a created or re-triggered alert. -/
def alertMessage (r : AlertRule) : String :=
  "threshold crossed for " ++ r.metric_name

/-- Re-trigger: the timestamp and message of the unresolved alert of the rule
are updated in place; nothing is added or removed. -/
def retriggerAlert (alerts : List Alert) (rn : String) (msg : String) (now : ℚ) :
    List Alert :=
  alerts.map (fun a => if isUnresolvedFor rn a then { a with timestamp := now, message := msg } else a)

/-- Resolution: the unresolved alert of the rule is marked resolved with a
resolution time; records are never physically deleted. -/
def resolveRule (alerts : List Alert) (rn : String) (now : ℚ) : List Alert :=
  alerts.map (fun a => if isUnresolvedFor rn a then { a with resolved := true, resolved_at := some now } else a)

/-- Modelled from the spec: rule evaluation of the alert engine on a metric
update (the engine implementation is not in the source tree). Threshold
crossed with no unresolved alert creates one; crossed with an unresolved
alert updates its timestamp and message in place; not crossed resolves any
unresolved alert of the rule. -/
def evaluate_rule (alerts : List Alert) (r : AlertRule) (value : ℚ) (now : ℚ) :
    List Alert :=
  if compareValue r.comparator value r.threshold then
    if hasUnresolved alerts r.rule_name then
      retriggerAlert alerts r.rule_name (alertMessage r) now
    else
      alerts ++ [{ id := alerts.length, rule_name := r.rule_name, severity := r.severity,
                   message := alertMessage r, triggering_metric := r.metric_name,
                   timestamp := now, resolved := false, resolved_at := none }]
  else resolveRule alerts r.rule_name now

/-- One metric update as seen by the alert engine: the rule bound to the
updated metric, the current aggregate value and the update time. -/
structure MetricUpdate where
  rule : AlertRule
  value : ℚ
  now : ℚ

/-- Alert store reached from the empty store by a sequence of metric updates. -/
def applyUpdates (updates : List MetricUpdate) : List Alert :=
  updates.foldl (fun al u => evaluate_rule al u.rule u.value u.now) []

/-- Number of unresolved alerts of one rule. -/
def unresolvedCount (alerts : List Alert) (rn : String) : Nat :=
  alerts.countP (isUnresolvedFor rn)

/-- Invariant of the alert store: at most one unresolved alert per rule. -/
def atMostOneUnresolvedPerRule (alerts : List Alert) : Prop :=
  ∀ rn, unresolvedCount alerts rn ≤ 1

/-- Number of tracked executions currently in the given status. -/
def countByStatus (tr : TrackerState) (s : ExecStatus) : Nat :=
  tr.countP (fun kv => decide (kv.2.status = s))

/-- Point-in-time composite health view. -/
structure HealthSnapshot where
  status : String
  running_executions : Nat
  completed_executions : Nat
  error_executions : Nat
  active_alert_count : Nat
  metrics : MetricStore
deriving DecidableEq

/-- Modelled from the spec: get_system_health of the health reporter (the
reporter implementation is not in the source tree). Pure read composition:
status is error when an active alert is critical, degraded when any active
alert exists, healthy otherwise; execution counts and the metrics summary are
included. The inputs are returned unchanged, making the absence of mutation
explicit in the type. -/
def get_system_health (ms : MetricStore) (tr : TrackerState) (alerts : List Alert)
    (now : ℚ) : HealthSnapshot × (MetricStore × TrackerState × List Alert) :=
  let active := get_active_alerts alerts now
  let status :=
    if active.any (fun a => a.severity == "critical") then "error"
    else if active.isEmpty then "healthy"
    else "degraded"
  (⟨status, countByStatus tr .running, countByStatus tr .completed,
    countByStatus tr .error, active.length, ms⟩, (ms, tr, alerts))

/-- Truncation toward zero of t times 1000 for a rational t, the embedding of
the Python expression int(t * 1000) on a clock reading t in seconds: for
t = num / den in lowest terms with den positive, the truncated product is
the truncating integer division of num * 1000 by den. -/
def msOfSeconds (t : ℚ) : Int :=
  Int.tdiv (t.num * 1000) (t.den : Int)

/-- Embedding of the execution id derivation at
src/agents/agent_service/main.py line 221: the f-string
exec-(agent_id)-(int(time.time() * 1000)), where t is the clock reading. -/
def makeExecutionId (agent_id : String) (t : ℚ) : String :=
  "exec-" ++ agent_id ++ "-" ++ toString (msOfSeconds t)

/-- The character list p is an initial segment of the character list s. -/
def headMatches : List Char → List Char → Bool
  | [], _ => true
  | _ :: _, [] => false
  | p :: ps, c :: cs => p == c && headMatches ps cs

/-- Substring test: pat occurs contiguously in s, the embedding of the Python
expression pat in s. -/
def containsSub (s pat : String) : Bool :=
  let cs := s.toList
  let ps := pat.toList
  (List.range (cs.length + 1)).any (fun i => headMatches ps (cs.drop i))

/-- Embedding of the error categorization chain of execute_agent
(src/agents/agent_service/main.py lines 312-330): the error category and the
HTTP status code derived from the lowercased exception message. -/
def categoryAndCode (msg : String) : String × Nat :=
  let low := msg.toLower
  if containsSub low "not found" then ("not_found", 404)
  else if containsSub low "invalid input" || containsSub low "validation" then
    ("validation_error", 400)
  else if containsSub low "unauthorized" || containsSub low "permission" then
    ("authorization_error", 403)
  else if containsSub low "timeout" then ("timeout_error", 408)
  else if containsSub low "rate limit" then ("rate_limit_error", 429)
  else ("internal_error", 500)

/-- Points in the body of execute_agent at which the awaited or instrumenting
calls can raise an exception; the handler at the end of the function catches
any of them. -/
inductive FailPoint where
  | startTracking
  | startMetric
  | agentExec
  | voiceSynth
  | successMetrics
  | endTracking
  | buildResponse
deriving DecidableEq

/-- Response of the execute endpoint as observed by the client: a success
payload or a JSON error response with a status code. -/
inductive AgentResp where
  | ok
  | errorResp (status_code : Nat)
deriving DecidableEq

/-- Combined observability state threaded through the execute handler. -/
structure SysState where
  metrics : MetricStore
  tracker : TrackerState
deriving DecidableEq

/-- Inputs and external events of one call of the execute endpoint: request
data, clock reading, behavior of the collaborators and the point, if any, at
which an exception is raised. -/
structure ExecEnv where
  agent_id : String
  now : ℚ
  input_length : Nat
  context_keys : List String
  isSimulation : Bool
  voiceEnabled : Bool
  voiceOk : Bool
  agentDur : ℚ
  voiceDur : ℚ
  totalDur : ℚ
  fail : Option FailPoint
  errMsg : String
  errType : String

/-- Metadata captured by start_execution_tracking at
src/agents/agent_service/main.py lines 228-233. -/
def execMetadata (env : ExecEnv) : List (String × String) :=
  [("agent_id", env.agent_id), ("input_length", toString env.input_length),
   ("context_keys", String.intercalate "," env.context_keys),
   ("timestamp", toString env.now)]

/-- Labels of the agent_execution_error counter recorded by the handler. -/
def errLabels (env : ExecEnv) : List (String × String) :=
  [("agent_id", env.agent_id), ("error_type", env.errType)]

/-- Embedding of the except branch of execute_agent
(src/agents/agent_service/main.py lines 300-349). The guard testing that
execution_id is in locals() is always true because the id is assigned on the
first line of the function, before the try block, so the branch always
records the agent_execution_error counter, then ends the tracking with status
error and the exception message, then records the categorized error counter
and returns the JSON error response; the metric and tracker components are
disjoint, so the sequential updates of the source are written componentwise. -/
def handleException (env : ExecEnv) (s : SysState) : SysState × AgentResp :=
  ({ metrics := (recordMetricOrKeep
       (recordMetricOrKeep s.metrics "agent_execution_error" 1 (errLabels env) .counter env.now)
       "error_by_category" 1
       [("category", (categoryAndCode env.errMsg).1), ("agent_id", env.agent_id)]
       .counter env.now),
     tracker := (end_execution s.tracker (makeExecutionId env.agent_id env.now) .error
       (some env.errMsg) env.now) },
   .errorResp (categoryAndCode env.errMsg).2)

/-- State after the start counter (src line 238) and, when the context flags
a simulation, the simulation counter (src line 247). -/
def afterStartMetrics (env : ExecEnv) (s1 : SysState) : SysState :=
  if env.isSimulation then
    { s1 with metrics := (recordMetricOrKeep
        (recordMetricOrKeep s1.metrics "agent_execution_started" 1
          [("agent_id", env.agent_id)] .counter env.now)
        "simulation_execution" 1 [("agent_id", env.agent_id)] .counter env.now) }
  else
    { s1 with metrics := (recordMetricOrKeep s1.metrics "agent_execution_started" 1
        [("agent_id", env.agent_id)] .counter env.now) }

/-- State after the instrumented agent manager call (src lines 253-260). -/
def afterAgentCall (env : ExecEnv) (eid : String) (s2 : SysState) : SysState :=
  { s2 with tracker := (record_function_call s2.tracker eid "agent_manager.execute_agent"
      env.agentDur true env.now) }

/-- State after the voice synthesis block (src lines 262-280), entered only
when voice is enabled: the synthesis call record plus the success or failure
counter according to whether audio came back. -/
def afterVoice (env : ExecEnv) (eid : String) (s3 : SysState) : SysState :=
  if env.voiceOk then
    { metrics := (recordMetricOrKeep s3.metrics "voice_synthesis_success" 1
        [("agent_id", env.agent_id)] .counter env.now),
      tracker := (record_function_call s3.tracker eid "voice_service.synthesize_speech"
        env.voiceDur env.voiceOk env.now) }
  else
    { metrics := (recordMetricOrKeep s3.metrics "voice_synthesis_failure" 1
        [("agent_id", env.agent_id)] .counter env.now),
      tracker := (record_function_call s3.tracker eid "voice_service.synthesize_speech"
        env.voiceDur env.voiceOk env.now) }

/-- State after the response time timer and the success counter
(src lines 286-287). -/
def afterSuccessMetrics (env : ExecEnv) (s4 : SysState) : SysState :=
  { s4 with metrics := (recordMetricOrKeep
      (recordMetricOrKeep s4.metrics "agent_response_time_ms" env.totalDur
        [("agent_id", env.agent_id), ("success", "true")] .timer env.now)
      "agent_execution_success" 1 [("agent_id", env.agent_id)] .counter env.now) }

/-- Embedding of the try branch of execute_agent
(src/agents/agent_service/main.py lines 219-299): tracking is started, the
start counter (and the simulation counter when flagged) is recorded, the
agent manager call and the optional voice synthesis are instrumented with
function call records and counters, the response time timer, the success
counter and the terminal end_execution_tracking call follow, and the success
payload is returned. An exception at any fail point diverts to
handleException, as does a DuplicateExecution raised by the tracker; an
exception during voice synthesis can only occur when voice is enabled. -/
def execute_agent (env : ExecEnv) (s0 : SysState) : SysState × AgentResp :=
  let eid := makeExecutionId env.agent_id env.now
  if env.fail = some .startTracking then handleException env s0 else
  match start_execution s0.tracker eid (execMetadata env) env.now with
  | .error _ => handleException env s0
  | .ok tr1 =>
    let s1 : SysState := { s0 with tracker := tr1 }
    if env.fail = some .startMetric then handleException env s1 else
    let s2 := afterStartMetrics env s1
    if env.fail = some .agentExec then handleException env s2 else
    let s3 := afterAgentCall env eid s2
    if env.voiceEnabled && decide (env.fail = some .voiceSynth) then handleException env s3 else
    let s4 := if env.voiceEnabled then afterVoice env eid s3 else s3
    if env.fail = some .successMetrics then handleException env s4 else
    let s5 := afterSuccessMetrics env s4
    if env.fail = some .endTracking then handleException env s5 else
    let s6 : SysState := { s5 with tracker := end_execution s5.tracker eid .completed none env.now }
    if env.fail = some .buildResponse then handleException env s6 else
    (s6, .ok)

lemma findMetric_append (st l2 : MetricStore) (k : MetricKey)
    (h : findMetric st k = none) : findMetric (st ++ l2) k = findMetric l2 k := by
  induction st with
  | nil => simp
  | cons kv rest ih =>
      obtain ⟨k0, a0⟩ := kv
      by_cases hk : k0 = k
      · simp only [findMetric, if_pos hk] at h
        exact absurd h (by simp)
      · simp only [List.cons_append, findMetric, if_neg hk] at h ⊢
        exact ih h

lemma findMetric_append_single_ne (st : MetricStore) (x : MetricKey × Aggregate)
    (k : MetricKey) (h : x.1 ≠ k) : findMetric (st ++ [x]) k = findMetric st k := by
  induction st with
  | nil =>
      obtain ⟨k0, a0⟩ := x
      simp only [List.nil_append, findMetric]
      rw [if_neg h]
  | cons kv rest ih =>
      obtain ⟨k0, a0⟩ := kv
      by_cases hk : k0 = k
      · simp [findMetric, hk]
      · simp only [List.cons_append, findMetric, if_neg hk]
        exact ih

lemma findMetric_update_self (st : MetricStore) (k : MetricKey) (a0 a : Aggregate)
    (h : findMetric st k = some a0) :
    findMetric (updateMetric st k a) k = some a := by
  induction st with
  | nil => simp [findMetric] at h
  | cons kv rest ih =>
      obtain ⟨k0, b⟩ := kv
      by_cases hk : k0 = k
      · simp [findMetric, updateMetric, hk]
      · simp only [findMetric, updateMetric, if_neg hk] at h ⊢
        exact ih h

lemma findMetric_update_ne (st : MetricStore) (k k2 : MetricKey) (a : Aggregate)
    (h : k ≠ k2) : findMetric (updateMetric st k a) k2 = findMetric st k2 := by
  induction st with
  | nil => rfl
  | cons kv rest ih =>
      obtain ⟨k0, a0⟩ := kv
      by_cases hk : k0 = k
      · subst hk
        have hk2 : k0 ≠ k2 := h
        simp [updateMetric, findMetric, hk2]
      · by_cases hk2 : k0 = k2
        · subst hk2
          simp [updateMetric, findMetric, hk]
        · simp [updateMetric, findMetric, hk, hk2, ih]

lemma findMetric_recordOrKeep_ne (st : MetricStore) (n : String) (v : ℚ)
    (l : List (String × String)) (kind : MetricKind) (now : ℚ) (key : MetricKey)
    (h : key.1 ≠ n) :
    findMetric (recordMetricOrKeep st n v l kind now) key = findMetric st key := by
  have hne : (n, l) ≠ key := by
    intro he
    exact h (by rw [← he])
  unfold recordMetricOrKeep record_metric
  cases hf : findMetric st (n, l) with
  | none =>
      exact findMetric_append_single_ne st ((n, l), initAggregate kind v now) key hne
  | some a =>
      by_cases hkind : kindOf a = kind
      · simp only [if_pos hkind]
        exact findMetric_update_ne st (n, l) key (stepAggregate a v now) hne
      · simp only [if_neg hkind]

lemma counterValue_record_step (st : MetricStore) (name : String)
    (labels : List (String × String)) (v now : ℚ)
    (h : counterCompat st name labels = true) :
    counterValue (recordMetricOrKeep st name v labels .counter now) name labels
      = counterValue st name labels + v ∧
    counterCompat (recordMetricOrKeep st name v labels .counter now) name labels = true := by
  unfold counterCompat at h
  cases hf : findMetric st (name, labels) with
  | none =>
      have hrec : recordMetricOrKeep st name v labels .counter now
          = st ++ [((name, labels), Aggregate.counter v now)] := by
        unfold recordMetricOrKeep record_metric
        rw [hf]
        rfl
      have hfind : findMetric (st ++ [((name, labels), Aggregate.counter v now)])
          (name, labels) = some (Aggregate.counter v now) := by
        rw [findMetric_append st _ _ hf]
        simp [findMetric]
      constructor
      · unfold counterValue
        rw [hrec, hfind, hf]
        exact (zero_add v).symm
      · unfold counterCompat
        rw [hrec, hfind]
  | some a =>
      rw [hf] at h
      cases a with
      | counter total lu =>
          have hrec : recordMetricOrKeep st name v labels .counter now
              = updateMetric st (name, labels) (Aggregate.counter (total + v) now) := by
            unfold recordMetricOrKeep record_metric
            rw [hf]
            simp [kindOf, stepAggregate]
          have hfind : findMetric (updateMetric st (name, labels)
                (Aggregate.counter (total + v) now)) (name, labels)
              = some (Aggregate.counter (total + v) now) :=
            findMetric_update_self st (name, labels) _ _ hf
          constructor
          · unfold counterValue
            rw [hrec, hfind, hf]
          · unfold counterCompat
            rw [hrec, hfind]
      | timer c tot mn mx lu => simp at h
      | gauge last lu => simp at h

lemma counterValue_recordCounterSeq (name : String) (labels : List (String × String))
    (now : ℚ) :
    ∀ (vs : List ℚ) (st : MetricStore), counterCompat st name labels = true →
      counterValue (recordCounterSeq st name labels vs now) name labels
        = counterValue st name labels + vs.sum ∧
      counterCompat (recordCounterSeq st name labels vs now) name labels = true := by
  intro vs
  induction vs with
  | nil =>
      intro st h
      exact ⟨by simp [recordCounterSeq], by simpa [recordCounterSeq] using h⟩
  | cons v vs ih =>
      intro st h
      have step := counterValue_record_step st name labels v now h
      have hfold : recordCounterSeq st name labels (v :: vs) now
          = recordCounterSeq (recordMetricOrKeep st name v labels .counter now)
              name labels vs now := by
        simp [recordCounterSeq]
      have tail := ih (recordMetricOrKeep st name v labels .counter now) step.2
      constructor
      · rw [hfold, tail.1, step.1, List.sum_cons]
        ring
      · rw [hfold]
        exact tail.2

/-- C1 (amended): the active-alerts listing returns exactly the alerts with
resolved false and timestamp strictly within 3600 seconds of now, and it
preserves the iteration order of the store as a sublist; it does not sort by
timestamp. -/
theorem active_alerts_filter (alerts : List Alert) (now : ℚ) :
    (∀ a : Alert, a ∈ get_active_alerts alerts now ↔
      a ∈ alerts ∧ a.resolved = false ∧ now - a.timestamp < 3600) ∧
    (get_active_alerts alerts now).Sublist alerts := by
  constructor
  · intro a
    simp [get_active_alerts, List.mem_filter, and_assoc]
  · exact List.filter_sublist _

def alertOld : Alert := ⟨0, "r1", "warning", "m1", "metric_a", 0, false, none⟩

def alertNew : Alert := ⟨1, "r2", "warning", "m2", "metric_b", 10, false, none⟩

/-- C1 counterexample: with two unresolved in-window alerts stored oldest
first, the endpoint returns them oldest first, so the returned sequence is
not sorted by timestamp descending, contrary to the claim. -/
theorem active_alerts_not_sorted_desc :
    get_active_alerts [alertOld, alertNew] 100 = [alertOld, alertNew] ∧
    sortedByTimestampDesc (get_active_alerts [alertOld, alertNew] 100) = false := by
  have h1 : get_active_alerts [alertOld, alertNew] 100 = [alertOld, alertNew] := by
    unfold get_active_alerts alertOld alertNew
    norm_num [List.filter]
  refine ⟨h1, ?_⟩
  rw [h1]
  unfold sortedByTimestampDesc alertOld alertNew
  norm_num

/-- C2: for every interleaving of counter recordings for one key issued by N
callers (any order-preserving merge is a permutation of the concatenated call
lists, so the theorem quantifies over all permutations, which is stronger),
the final summed value of that key, starting from an empty store, equals the
arithmetic sum over all callers: sequential in-place aggregation loses no
update. -/
theorem counter_no_lost_updates (name : String) (labels : List (String × String))
    (now : ℚ) (callers : List (List ℚ)) (interleaved : List ℚ)
    (hperm : interleaved.Perm callers.flatten)
    (hnonneg : ∀ v ∈ interleaved, 0 ≤ v) :
    counterValue (recordCounterSeq [] name labels interleaved now) name labels
      = (callers.map List.sum).sum := by
  have h0 : counterCompat [] name labels = true := rfl
  rw [(counterValue_recordCounterSeq name labels now interleaved [] h0).1]
  have hz : counterValue [] name labels = 0 := rfl
  rw [hz, zero_add, hperm.sum_eq, List.sum_flatten]

/-- C2 witness: two callers recording the values one and two-three merge into
the interleaving one-two-three, and the final counter value is the total. -/
theorem counter_no_lost_updates_witness :
    counterValue (recordCounterSeq [] "requests" [] [(1 : ℚ), 2, 3] 0) "requests" []
      = ([[(1 : ℚ)], [2, 3]].map List.sum).sum :=
  counter_no_lost_updates "requests" [] 0 [[(1 : ℚ)], [2, 3]] [(1 : ℚ), 2, 3]
    (List.Perm.refl _) (by decide)

lemma findExec_append (st l2 : TrackerState) (id : String)
    (h : findExec st id = none) : findExec (st ++ l2) id = findExec l2 id := by
  induction st with
  | nil => simp
  | cons kv rest ih =>
      obtain ⟨k0, r0⟩ := kv
      by_cases hk : k0 = id
      · simp only [findExec, if_pos hk] at h
        exact absurd h (by simp)
      · simp only [List.cons_append, findExec, if_neg hk] at h ⊢
        exact ih h

lemma findExec_update_self (st : TrackerState) (id : String) (r0 r : ExecutionRecord)
    (h : findExec st id = some r0) :
    findExec (updateExec st id r) id = some r := by
  induction st with
  | nil => simp [findExec] at h
  | cons kv rest ih =>
      obtain ⟨k0, b⟩ := kv
      by_cases hk : k0 = id
      · simp [findExec, updateExec, hk]
      · simp only [findExec, updateExec, if_neg hk] at h ⊢
        exact ih h

/-- C3: the execution report endpoint maps a missing record to a 404 failure
response with no payload, maps a present record to a 200 success payload
carrying the full report, and never reports success for an unknown id. -/
theorem execution_report_endpoint (st : TrackerState) (id : String) (now : ℚ) :
    (findExec st id = none → get_execution_report st id now = ⟨404, false, none⟩) ∧
    (∀ r : ExecutionRecord, findExec st id = some r →
      get_execution_report st id now = ⟨200, true, some (mkReport r now)⟩) ∧
    ((get_execution_report st id now).success = true →
      (get_performance_report st id now).isSome) := by
  refine ⟨?_, ?_, ?_⟩
  · intro h
    simp [get_execution_report, get_performance_report, h]
  · intro r h
    simp [get_execution_report, get_performance_report, h]
  · intro h
    cases hp : get_performance_report st id now with
    | none =>
        unfold get_execution_report at h
        rw [hp] at h
        simp at h
    | some r => simp

/-- C3 witness: on the empty tracker, an unknown id yields the 404 response. -/
theorem execution_report_endpoint_witness :
    get_execution_report ([] : TrackerState) "missing" 0 = ⟨404, false, none⟩ :=
  (execution_report_endpoint [] "missing" 0).1 rfl

/-- C4: start_execution on an id that already has a record fails with
DuplicateExecution and produces no new table, so the existing record is not
overwritten; on a fresh id it returns the table extended with a record in
running state, retrievable by the id. -/
theorem start_execution_spec (st : TrackerState) (id : String)
    (md : List (String × String)) (now : ℚ) :
    (∀ r : ExecutionRecord, findExec st id = some r →
      start_execution st id md now = .error .duplicateExecution) ∧
    (findExec st id = none →
      start_execution st id md now
        = .ok (st ++ [(id, ⟨md, now, none, .running, none, []⟩)]) ∧
      findExec (st ++ [(id, ⟨md, now, none, .running, none, []⟩)]) id
        = some ⟨md, now, none, .running, none, []⟩) := by
  constructor
  · intro r h
    unfold start_execution
    rw [h]
  · intro h
    refine ⟨by unfold start_execution; rw [h], ?_⟩
    rw [findExec_append st _ id h]
    simp [findExec]

def recW : ExecutionRecord := ⟨[], 0, none, .running, none, []⟩

/-- C4 witness: starting an id that already has a live record is rejected. -/
theorem start_execution_spec_witness :
    start_execution [("e1", recW)] "e1" [] 5 = .error .duplicateExecution :=
  (start_execution_spec [("e1", recW)] "e1" [] 5).1 recW rfl

/-- C5: record_function_call on an unknown id leaves the table unchanged and
a subsequent get_performance_report for that id still returns nothing; the
return type of record_function_call has no error variant, so the call cannot
raise to the caller. -/
theorem record_function_call_unknown (st : TrackerState) (id callName : String)
    (d : ℚ) (ok : Bool) (t now : ℚ) (h : findExec st id = none) :
    record_function_call st id callName d ok t = st ∧
    get_performance_report (record_function_call st id callName d ok t) id now = none := by
  have h1 : record_function_call st id callName d ok t = st := by
    unfold record_function_call
    rw [h]
  refine ⟨h1, ?_⟩
  rw [h1]
  unfold get_performance_report
  rw [h]
  rfl

/-- C5 witness: recording a call against a never-started id on the empty
tracker is a no-op and the id stays unreported. -/
theorem record_function_call_unknown_witness :
    record_function_call ([] : TrackerState) "ghost" "f" 1 true 2 = [] ∧
    get_performance_report (record_function_call ([] : TrackerState) "ghost" "f" 1 true 2)
      "ghost" 3 = none :=
  record_function_call_unknown [] "ghost" "f" 1 true 2 3 rfl

def mdE1 : List (String × String) := [("agent_id", "a1")]

/-- Tracker state after the C7 scenario: start e1, record f twice, end with
completed. -/
def scenarioE1 : TrackerState :=
  match start_execution [] "e1" mdE1 100 with
  | .error _ => []
  | .ok st1 =>
      let st2 := record_function_call st1 "e1" "f" 12.5 true 101
      let st3 := record_function_call st2 "e1" "f" 12.5 true 102
      end_execution st3 "e1" .completed none 103

/-- C7: after starting e1, recording the call f twice and completing, the
report holds exactly the two call records in call order with status
completed; in general, recording a call appends one record at the end of the
stored sequence, so the sequence is append-only and preserves call order. -/
theorem execution_call_order :
    (get_performance_report scenarioE1 "e1" 104
      = some ⟨mdE1, .completed, 3,
          [⟨"f", 12.5, true, 101⟩, ⟨"f", 12.5, true, 102⟩], none⟩) ∧
    (∀ (st : TrackerState) (id callName : String) (d : ℚ) (ok : Bool) (t : ℚ)
      (r : ExecutionRecord), findExec st id = some r →
      findExec (record_function_call st id callName d ok t) id
        = some { r with function_calls := r.function_calls ++ [⟨callName, d, ok, t⟩] }) := by
  constructor
  · have hstate : scenarioE1
        = [("e1", ⟨mdE1, 100, some 103, .completed, none,
            [⟨"f", 12.5, true, 101⟩, ⟨"f", 12.5, true, 102⟩]⟩)] := rfl
    rw [hstate]
    simp only [get_performance_report, findExec, if_pos rfl, Option.map_some]
    simp only [mkReport]
    norm_num
  · intro st id callName d ok t r h
    unfold record_function_call
    rw [h]
    exact findExec_update_self st id r _ h

/-- C7 witness: recording one call against a live record appends exactly that
call record at the end of the stored sequence. -/
theorem execution_call_order_witness :
    findExec (record_function_call [("e1", recW)] "e1" "g" 1 true 2) "e1"
      = some { recW with function_calls := recW.function_calls ++ [⟨"g", 1, true, 2⟩] } :=
  execution_call_order.2 [("e1", recW)] "e1" "g" 1 true 2 recW rfl

/-- C8: get_system_health is a pure read: it returns its inputs unchanged,
and a second call on the state it returns yields a snapshot equal to the
first, so back-to-back reads of an unchanged store observe the same health. -/
theorem get_system_health_idempotent (ms : MetricStore) (tr : TrackerState)
    (alerts : List Alert) (now : ℚ) :
    (get_system_health ms tr alerts now).2 = (ms, tr, alerts) ∧
    (get_system_health (get_system_health ms tr alerts now).2.1
        (get_system_health ms tr alerts now).2.2.1
        (get_system_health ms tr alerts now).2.2.2 now).1
      = (get_system_health ms tr alerts now).1 :=
  ⟨rfl, rfl⟩

/-- C10: the execution id is deterministically the string
exec-(agent id)-(clock reading in whole milliseconds), and any two clock
readings that truncate to the same millisecond produce equal ids for the same
agent, so this caller does not guarantee uniqueness of the id it supplies. -/
theorem execution_id_ms_collision (agent_id : String) (t1 t2 : ℚ)
    (h : msOfSeconds t1 = msOfSeconds t2) :
    makeExecutionId agent_id t1
      = "exec-" ++ agent_id ++ "-" ++ toString (msOfSeconds t1) ∧
    makeExecutionId agent_id t1 = makeExecutionId agent_id t2 := by
  refine ⟨rfl, ?_⟩
  unfold makeExecutionId
  rw [h]

/-- Clock reading of 1.0001 seconds. -/
def tEarly : ℚ := ⟨10001, 10000, by decide, by decide⟩

/-- Clock reading of 1.0003 seconds, in the same millisecond as tEarly. -/
def tLate : ℚ := ⟨10003, 10000, by decide, by decide⟩

/-- C10 witness: two distinct clock readings inside the same millisecond
produce the same execution id for the same agent. -/
theorem execution_id_ms_collision_witness :
    tEarly ≠ tLate ∧
    makeExecutionId "agent-7" tEarly = makeExecutionId "agent-7" tLate :=
  ⟨by decide, (execution_id_ms_collision "agent-7" tEarly tLate (by decide)).2⟩

lemma isUnresolvedFor_retrigger_point (rn rn2 msg : String) (now : ℚ) (a : Alert) :
    isUnresolvedFor rn2
        (if isUnresolvedFor rn a then { a with timestamp := now, message := msg } else a)
      = isUnresolvedFor rn2 a := by
  cases hb : isUnresolvedFor rn a
  · simp [hb]
  · simp [hb, isUnresolvedFor]

lemma unresolvedCount_retrigger (alerts : List Alert) (rn msg : String) (now : ℚ)
    (rn2 : String) :
    unresolvedCount (retriggerAlert alerts rn msg now) rn2 = unresolvedCount alerts rn2 := by
  unfold unresolvedCount retriggerAlert
  induction alerts with
  | nil => rfl
  | cons a rest ih =>
      simp only [List.map_cons, List.countP_cons]
      rw [ih, isUnresolvedFor_retrigger_point]

lemma unresolvedCount_resolve_le (alerts : List Alert) (rn : String) (now : ℚ)
    (rn2 : String) :
    unresolvedCount (resolveRule alerts rn now) rn2 ≤ unresolvedCount alerts rn2 := by
  unfold unresolvedCount resolveRule
  induction alerts with
  | nil => simp
  | cons a rest ih =>
      simp only [List.map_cons, List.countP_cons]
      have hpoint :
          (if isUnresolvedFor rn2
              (if isUnresolvedFor rn a then { a with resolved := true, resolved_at := some now } else a)
            then 1 else 0)
          ≤ (if isUnresolvedFor rn2 a then 1 else 0) := by
        cases hb : isUnresolvedFor rn a
        · simp [hb]
        · simp [hb, isUnresolvedFor]
      exact Nat.add_le_add ih hpoint

lemma unresolvedCount_eq_zero_of_not_has (alerts : List Alert) (rn : String)
    (h : hasUnresolved alerts rn = false) : unresolvedCount alerts rn = 0 := by
  unfold hasUnresolved at h
  unfold unresolvedCount
  induction alerts with
  | nil => rfl
  | cons a rest ih =>
      simp only [List.any_cons, Bool.or_eq_false_iff] at h
      simp [List.countP_cons, h.1, ih h.2]

lemma evaluate_rule_preserves (alerts : List Alert) (r : AlertRule) (value now : ℚ)
    (h : atMostOneUnresolvedPerRule alerts) :
    atMostOneUnresolvedPerRule (evaluate_rule alerts r value now) := by
  intro rn
  unfold evaluate_rule
  by_cases hc : compareValue r.comparator value r.threshold = true
  · rw [if_pos hc]
    by_cases hu : hasUnresolved alerts r.rule_name = true
    · rw [if_pos hu, unresolvedCount_retrigger]
      exact h rn
    · have hu0 : hasUnresolved alerts r.rule_name = false := by
        cases hb : hasUnresolved alerts r.rule_name
        · rfl
        · exact absurd hb hu
      rw [if_neg hu]
      unfold unresolvedCount
      rw [List.countP_append]
      by_cases hrn : rn = r.rule_name
      · subst hrn
        have hz := unresolvedCount_eq_zero_of_not_has alerts r.rule_name hu0
        unfold unresolvedCount at hz
        rw [hz]
        simp [List.countP_cons, isUnresolvedFor]
      · have hz2 : List.countP (isUnresolvedFor rn)
            [({ id := alerts.length, rule_name := r.rule_name, severity := r.severity,
                message := alertMessage r, triggering_metric := r.metric_name,
                timestamp := now, resolved := false, resolved_at := none } : Alert)] = 0 := by
          simp [List.countP_cons, isUnresolvedFor]
          exact fun he => absurd he.symm hrn
        rw [hz2, Nat.add_zero]
        exact h rn
  · rw [if_neg hc]
    exact le_trans (unresolvedCount_resolve_le alerts r.rule_name now rn) (h rn)

lemma applyUpdates_preserves : ∀ (updates : List MetricUpdate) (al : List Alert),
    atMostOneUnresolvedPerRule al →
    atMostOneUnresolvedPerRule
      (updates.foldl (fun al u => evaluate_rule al u.rule u.value u.now) al) := by
  intro updates
  induction updates with
  | nil => intro al h; exact h
  | cons u rest ih =>
      intro al h
      simp only [List.foldl_cons]
      exact ih _ (evaluate_rule_preserves al u.rule u.value u.now h)

/-- C6: starting from the empty alert store, every sequence of metric updates
leaves at most one unresolved alert per rule (so the invariant holds at every
point in time, each prefix being itself a sequence), and when the threshold
is crossed while an unresolved alert for the rule exists the store keeps the
same length: the alert is updated in place and no second alert is created. -/
theorem alert_uniqueness_per_rule :
    (∀ updates : List MetricUpdate, atMostOneUnresolvedPerRule (applyUpdates updates)) ∧
    (∀ (alerts : List Alert) (r : AlertRule) (value now : ℚ),
      compareValue r.comparator value r.threshold = true →
      hasUnresolved alerts r.rule_name = true →
      (evaluate_rule alerts r value now).length = alerts.length) := by
  constructor
  · intro updates
    exact applyUpdates_preserves updates []
      (fun rn => by simp [unresolvedCount])
  · intro alerts r value now hc hu
    unfold evaluate_rule
    rw [if_pos hc, if_pos hu]
    unfold retriggerAlert
    simp

def ruleW : AlertRule := ⟨"r1", "metric_a", .ge, 1, "warning"⟩

/-- C6 witness: re-triggering a rule whose unresolved alert is present keeps
the number of stored alerts unchanged. -/
theorem alert_uniqueness_per_rule_witness :
    (evaluate_rule [alertOld] ruleW 5 20).length = [alertOld].length :=
  alert_uniqueness_per_rule.2 [alertOld] ruleW 5 20 (by decide) (by decide)

/-- Metric key of the error counter recorded by the exception handler. -/
def errKey (env : ExecEnv) : MetricKey := ("agent_execution_error", errLabels env)

lemma counterValue_recordOrKeep_ne (st : MetricStore) (n : String) (v : ℚ)
    (l : List (String × String)) (kind : MetricKind) (now : ℚ)
    (name : String) (labels : List (String × String)) (h : name ≠ n) :
    counterValue (recordMetricOrKeep st n v l kind now) name labels
      = counterValue st name labels := by
  unfold counterValue
  rw [findMetric_recordOrKeep_ne st n v l kind now (name, labels) h]

lemma findMetric_afterStartMetrics (env : ExecEnv) (s : SysState) :
    findMetric (afterStartMetrics env s).metrics (errKey env)
      = findMetric s.metrics (errKey env) := by
  unfold afterStartMetrics
  have hne1 : (errKey env).1 ≠ "simulation_execution" := by
    show ("agent_execution_error" : String) ≠ "simulation_execution"
    decide
  have hne2 : (errKey env).1 ≠ "agent_execution_started" := by
    show ("agent_execution_error" : String) ≠ "agent_execution_started"
    decide
  by_cases hs : env.isSimulation = true
  · rw [if_pos hs]
    show findMetric (recordMetricOrKeep (recordMetricOrKeep s.metrics "agent_execution_started" 1 [("agent_id", env.agent_id)] .counter env.now) "simulation_execution" 1 [("agent_id", env.agent_id)] .counter env.now) (errKey env) = _
    rw [findMetric_recordOrKeep_ne _ _ _ _ _ _ _ hne1,
      findMetric_recordOrKeep_ne _ _ _ _ _ _ _ hne2]
  · rw [if_neg hs]
    show findMetric (recordMetricOrKeep s.metrics "agent_execution_started" 1 [("agent_id", env.agent_id)] .counter env.now) (errKey env) = _
    rw [findMetric_recordOrKeep_ne _ _ _ _ _ _ _ hne2]

lemma findMetric_afterVoice (env : ExecEnv) (eid : String) (s : SysState) :
    findMetric (afterVoice env eid s).metrics (errKey env)
      = findMetric s.metrics (errKey env) := by
  unfold afterVoice
  have hne1 : (errKey env).1 ≠ "voice_synthesis_success" := by
    show ("agent_execution_error" : String) ≠ "voice_synthesis_success"
    decide
  have hne2 : (errKey env).1 ≠ "voice_synthesis_failure" := by
    show ("agent_execution_error" : String) ≠ "voice_synthesis_failure"
    decide
  by_cases hv : env.voiceOk = true
  · rw [if_pos hv]
    show findMetric (recordMetricOrKeep s.metrics "voice_synthesis_success" 1 [("agent_id", env.agent_id)] .counter env.now) (errKey env) = _
    rw [findMetric_recordOrKeep_ne _ _ _ _ _ _ _ hne1]
  · rw [if_neg hv]
    show findMetric (recordMetricOrKeep s.metrics "voice_synthesis_failure" 1 [("agent_id", env.agent_id)] .counter env.now) (errKey env) = _
    rw [findMetric_recordOrKeep_ne _ _ _ _ _ _ _ hne2]

lemma findMetric_afterSuccessMetrics (env : ExecEnv) (s : SysState) :
    findMetric (afterSuccessMetrics env s).metrics (errKey env)
      = findMetric s.metrics (errKey env) := by
  unfold afterSuccessMetrics
  have hne1 : (errKey env).1 ≠ "agent_execution_success" := by
    show ("agent_execution_error" : String) ≠ "agent_execution_success"
    decide
  have hne2 : (errKey env).1 ≠ "agent_response_time_ms" := by
    show ("agent_execution_error" : String) ≠ "agent_response_time_ms"
    decide
  show findMetric (recordMetricOrKeep (recordMetricOrKeep s.metrics "agent_response_time_ms" env.totalDur [("agent_id", env.agent_id), ("success", "true")] .timer env.now) "agent_execution_success" 1 [("agent_id", env.agent_id)] .counter env.now) (errKey env) = _
  rw [findMetric_recordOrKeep_ne _ _ _ _ _ _ _ hne1,
    findMetric_recordOrKeep_ne _ _ _ _ _ _ _ hne2]

lemma end_execution_not_running (st : TrackerState) (id : String)
    (msg : Option String) (now : ℚ) :
    ∀ r : ExecutionRecord,
      findExec (end_execution st id .error msg now) id = some r →
      r.status ≠ ExecStatus.running := by
  intro r hr
  unfold end_execution at hr
  split at hr
  · rename_i heq
    rw [heq] at hr
    exact absurd hr (by simp)
  · rename_i r0 heq
    split at hr
    · rename_i hs
      rw [findExec_update_self st id r0 _ heq] at hr
      obtain rfl := Option.some.inj hr
      intro hcontra
      exact absurd hcontra (by simp [endStatusToExec])
    · rename_i hs
      rw [heq] at hr
      obtain rfl := Option.some.inj hr
      exact hs

lemma handleException_spec (env : ExecEnv) (s : SysState)
    (hcompat : counterCompat s.metrics "agent_execution_error" (errLabels env) = true) :
    counterValue (handleException env s).1.metrics "agent_execution_error" (errLabels env)
      = counterValue s.metrics "agent_execution_error" (errLabels env) + 1 ∧
    (handleException env s).2 = .errorResp (categoryAndCode env.errMsg).2 ∧
    ∀ r : ExecutionRecord,
      findExec (handleException env s).1.tracker (makeExecutionId env.agent_id env.now)
        = some r →
      r.status ≠ ExecStatus.running := by
  refine ⟨?_, rfl, ?_⟩
  · have hne : ("agent_execution_error" : String) ≠ "error_by_category" := by decide
    show counterValue
        (recordMetricOrKeep
          (recordMetricOrKeep s.metrics "agent_execution_error" 1 (errLabels env) .counter env.now)
          "error_by_category" 1
          [("category", (categoryAndCode env.errMsg).1), ("agent_id", env.agent_id)]
          .counter env.now)
        "agent_execution_error" (errLabels env) = _
    rw [counterValue_recordOrKeep_ne _ _ _ _ _ _ _ _ hne]
    exact (counterValue_record_step s.metrics "agent_execution_error" (errLabels env) 1
      env.now hcompat).1
  · intro r hr
    exact end_execution_not_running s.tracker (makeExecutionId env.agent_id env.now)
      (some env.errMsg) env.now r hr

lemma execute_agent_exits (env : ExecEnv) (s0 : SysState) :
    (execute_agent env s0).2 = AgentResp.ok ∨
    ∃ s : SysState, execute_agent env s0 = handleException env s ∧
      findMetric s.metrics (errKey env) = findMetric s0.metrics (errKey env) := by
  simp only [execute_agent]
  by_cases h1 : env.fail = some FailPoint.startTracking
  · rw [if_pos h1]
    exact Or.inr ⟨s0, rfl, rfl⟩
  · rw [if_neg h1]
    split
    · exact Or.inr ⟨s0, rfl, rfl⟩
    · rename_i tr1 heqStart
      by_cases h2 : env.fail = some FailPoint.startMetric
      · rw [if_pos h2]
        exact Or.inr ⟨{ s0 with tracker := tr1 }, rfl, rfl⟩
      · rw [if_neg h2]
        by_cases h3 : env.fail = some FailPoint.agentExec
        · rw [if_pos h3]
          exact Or.inr ⟨afterStartMetrics env { s0 with tracker := tr1 }, rfl,
            findMetric_afterStartMetrics env { s0 with tracker := tr1 }⟩
        · rw [if_neg h3]
          by_cases h4 : (env.voiceEnabled && decide (env.fail = some FailPoint.voiceSynth)) = true
          · rw [if_pos h4]
            exact Or.inr ⟨afterAgentCall env (makeExecutionId env.agent_id env.now)
                (afterStartMetrics env { s0 with tracker := tr1 }), rfl,
              findMetric_afterStartMetrics env { s0 with tracker := tr1 }⟩
          · rw [if_neg h4]
            by_cases h5 : env.fail = some FailPoint.successMetrics
            · rw [if_pos h5]
              refine Or.inr ⟨_, rfl, ?_⟩
              by_cases hv : env.voiceEnabled = true
              · rw [if_pos hv]
                rw [findMetric_afterVoice]
                exact findMetric_afterStartMetrics env { s0 with tracker := tr1 }
              · rw [if_neg hv]
                exact findMetric_afterStartMetrics env { s0 with tracker := tr1 }
            · rw [if_neg h5]
              by_cases h6 : env.fail = some FailPoint.endTracking
              · rw [if_pos h6]
                refine Or.inr ⟨_, rfl, ?_⟩
                rw [findMetric_afterSuccessMetrics]
                by_cases hv : env.voiceEnabled = true
                · rw [if_pos hv]
                  rw [findMetric_afterVoice]
                  exact findMetric_afterStartMetrics env { s0 with tracker := tr1 }
                · rw [if_neg hv]
                  exact findMetric_afterStartMetrics env { s0 with tracker := tr1 }
              · rw [if_neg h6]
                by_cases h7 : env.fail = some FailPoint.buildResponse
                · rw [if_pos h7]
                  refine Or.inr ⟨_, rfl, ?_⟩
                  show findMetric (afterSuccessMetrics env _).metrics (errKey env) = _
                  rw [findMetric_afterSuccessMetrics]
                  by_cases hv : env.voiceEnabled = true
                  · rw [if_pos hv]
                    rw [findMetric_afterVoice]
                    exact findMetric_afterStartMetrics env { s0 with tracker := tr1 }
                  · rw [if_neg hv]
                    exact findMetric_afterStartMetrics env { s0 with tracker := tr1 }
                · rw [if_neg h7]
                  exact Or.inl rfl

/-- C9: whenever execute_agent returns an error response (an exception was
raised at any point after the execution id was assigned), the handler has
recorded the agent_execution_error counter, incrementing it by one, and has
ended the tracking with status error, so any record stored under the derived
execution id is no longer in the running state. -/
theorem execute_agent_error_handling (env : ExecEnv) (s0 : SysState)
    (hcompat : counterCompat s0.metrics "agent_execution_error" (errLabels env) = true)
    (herr : (execute_agent env s0).2 ≠ AgentResp.ok) :
    counterValue (execute_agent env s0).1.metrics "agent_execution_error" (errLabels env)
      = counterValue s0.metrics "agent_execution_error" (errLabels env) + 1 ∧
    ∀ r : ExecutionRecord,
      findExec (execute_agent env s0).1.tracker (makeExecutionId env.agent_id env.now)
        = some r →
      r.status ≠ ExecStatus.running := by
  rcases execute_agent_exits env s0 with hok | ⟨s, heq, hagree⟩
  · exact absurd hok herr
  · unfold errKey at hagree
    have hcompat2 : counterCompat s.metrics "agent_execution_error" (errLabels env) = true := by
      unfold counterCompat at hcompat ⊢
      rw [hagree]
      exact hcompat
    have hval : counterValue s.metrics "agent_execution_error" (errLabels env)
        = counterValue s0.metrics "agent_execution_error" (errLabels env) := by
      unfold counterValue
      rw [hagree]
    have hspec := handleException_spec env s hcompat2
    constructor
    · rw [heq, hspec.1, hval]
    · rw [heq]
      exact hspec.2.2

/-- C9 witness: with an injected exception at the start metric step on the
empty state, the error counter for the agent is incremented by one. -/
theorem execute_agent_error_handling_witness :
    counterValue (execute_agent
        ⟨"a", 1, 0, [], false, false, false, 0, 0, 0, some .startMetric, "boom", "RuntimeError"⟩
        ⟨[], []⟩).1.metrics "agent_execution_error"
        [("agent_id", "a"), ("error_type", "RuntimeError")]
      = counterValue ([] : MetricStore) "agent_execution_error"
          [("agent_id", "a"), ("error_type", "RuntimeError")] + 1 :=
  (execute_agent_error_handling
    ⟨"a", 1, 0, [], false, false, false, 0, 0, 0, some .startMetric, "boom", "RuntimeError"⟩
    ⟨[], []⟩ (by decide) (by decide)).1

end Monitoring
